import Mathlib

/-!
Verification of the WeylandTavern launcher process supervisor
(`src/Launcher/src-tauri/src/main.rs`).

The Rust functions are shallowly embedded as pure Lean functions.
Effectful inputs (environment variables, filesystem metadata, subprocess
outcomes, network probes) are supplied through explicit oracle records,
and each subprocess or filesystem invocation is recorded in an event
trace so that statements of the form "no second process is spawned" or
"no git command runs" are expressible as trace membership facts.
-/

namespace WeylandTavern

/-! ## String helpers mirroring the Rust standard library operations used -/

/-- Rust `str::trim`: strip leading and trailing whitespace. -/
def rustTrim (s : String) : String :=
  ⟨(((s.data.dropWhile Char.isWhitespace).reverse).dropWhile Char.isWhitespace).reverse⟩

/-- Rust `str::to_ascii_lowercase` (also used for the ASCII-only part of
`to_lowercase` that the update classifier relies on). -/
def asciiLower (s : String) : String :=
  ⟨s.data.map Char.toLower⟩

/-- Does the needle occur at the head of the haystack? -/
def strLeads : List Char → List Char → Bool
  | [], _ => true
  | _ :: _, [] => false
  | a :: as, b :: bs => a == b && strLeads as bs

/-- Substring occurrence over character lists. -/
def listContainsSub (needle : List Char) : List Char → Bool
  | [] => strLeads needle []
  | h :: t => strLeads needle (h :: t) || listContainsSub needle t

/-- Rust `str::contains` for a literal pattern. -/
def containsSub (hay needle : String) : Bool :=
  listContainsSub needle.data hay.data

/-- Rust `str::split_whitespace`, accumulator-based. -/
def splitWsGo : List Char → List Char → List String
  | [], acc => if acc = [] then [] else [⟨acc.reverse⟩]
  | c :: cs, acc =>
    if c.isWhitespace then
      if acc = [] then splitWsGo cs [] else ⟨acc.reverse⟩ :: splitWsGo cs []
    else splitWsGo cs (c :: acc)

/-- Rust `str::split_whitespace`. -/
def split_whitespace (s : String) : List String := splitWsGo s.data []

/-- Path rendered the way `Path::display` joins components. -/
def pathStr (p : List String) : String :=
  match p with
  | [] => ""
  | x :: xs => xs.foldl (fun acc c => acc ++ "/" ++ c) x

instance {ε α : Type _} [DecidableEq ε] [DecidableEq α] : DecidableEq (Except ε α) := fun x y =>
  match x, y with
  | .ok a, .ok b =>
    if h : a = b then isTrue (by rw [h]) else isFalse (by intro hh; cases hh; exact h rfl)
  | .error a, .error b =>
    if h : a = b then isTrue (by rw [h]) else isFalse (by intro hh; cases hh; exact h rfl)
  | .ok _, .error _ => isFalse (by intro hh; cases hh)
  | .error _, .ok _ => isFalse (by intro hh; cases hh)

/-! ## Subprocess outcome -/

/-- Combined result of a finished subprocess: exit-status success flag plus
captured stdout and stderr (already decoded, as by `from_utf8_lossy`). -/
structure GitOutput where
  success : Bool
  stdout : String
  stderr : String
deriving DecidableEq, Repr

/-! ## Port parsing (`parse_port`, main.rs lines 770-776) -/

/-- Numeric value of a digit list. -/
def digitsVal (cs : List Char) : Nat :=
  cs.foldl (fun acc c => acc * 10 + (c.toNat - 48)) 0

/-- Strip the optional leading plus sign accepted by unsigned parsing. -/
def dropPlus : List Char → List Char
  | '+' :: rest => rest
  | cs => cs

/-- Rust `str::parse::<u16>` on an already trimmed character list: an optional
leading plus sign, then at least one digit, value at most 65535. -/
def parseU16 (cs0 : List Char) : Option Nat :=
  let cs := dropPlus cs0
  if cs.isEmpty then none
  else if cs.all Char.isDigit then
    let n := digitsVal cs
    if n ≤ 65535 then some n else none
  else none

/-- `parse_port`: trim, reject empty, parse as u16, reject zero. -/
def parse_port (value : String) : Option Nat :=
  let trimmed := rustTrim value
  if trimmed = "" then none
  else
    match parseU16 trimmed.data with
    | some port => if port ≠ 0 then some port else none
    | none => none

/-! ## Dependency staleness (`should_npm_install`, main.rs lines 851-875) -/

/-- Filesystem facts consulted by `should_npm_install`: existence of the
`node_modules` directory and `package-lock.json`, and their modification
times (each metadata read may fail, carrying the OS error text). -/
structure Fs where
  nodeModulesExists : Bool
  lockExists : Bool
  lockMtime : Except String Nat
  nodeModulesMtime : Except String Nat

/-- `should_npm_install(mode, dir)`: never/always short-circuit, otherwise the
auto staleness comparison of mtimes, propagating metadata failures. -/
def should_npm_install (mode : String) (fs : Fs) : Except String Bool :=
  if mode = "never" then .ok false
  else if mode = "always" then .ok true
  else if !fs.nodeModulesExists then .ok true
  else if fs.lockExists then
    match fs.lockMtime with
    | .error e => .error e
    | .ok lm =>
      match fs.nodeModulesMtime with
      | .error e => .error e
      | .ok nm => .ok (decide (nm < lm))
  else .ok false

/-! ## Health polling (`wait_for_health`, main.rs lines 877-892) -/

/-- `r.map(|r| r.status().is_success()).unwrap_or(false)`: a request error
counts as a failed probe, not a fatal condition. -/
def probeOk (r : Except String Bool) : Bool :=
  match r with
  | .ok b => b
  | .error _ => false

/-- Sleep duration after failed attempt `i`: `500 + i * 100` milliseconds. -/
def healthDelay (i : Nat) : Nat := 500 + i * 100

/-- The `for i in 0..30` probe loop. Returns the final result, the number of
probe attempts issued, and the list of sleep durations performed. -/
def wait_for_health_go (probe : Nat → Except String Bool) : Nat → Nat → Bool × Nat × List Nat
  | _, 0 => (false, 0, [])
  | i, fuel + 1 =>
    if probeOk (probe i) then (true, 1, [])
    else
      let r := wait_for_health_go probe (i + 1) fuel
      (r.1, r.2.1 + 1, healthDelay i :: r.2.2)

/-- `wait_for_health(url)` with the HTTP probe abstracted as an oracle indexed
by attempt number. -/
def wait_for_health (probe : Nat → Except String Bool) : Bool × Nat × List Nat :=
  wait_for_health_go probe 0 30

/-! ## Port negotiation (`silly_env_port` lines 778-818, `is_port_available`
lines 820-828, `determine_port` lines 830-849) -/

/-- One entry yielded by the dotenv iterator over the target `.env` file:
a parse failure (aborting the scan), an entry skipped because key or value
is not valid UTF-8, or a key/value pair. -/
inductive EnvEntry where
  | parseError (msg : String)
  | skipped
  | pair (key value : String)
deriving DecidableEq, Repr

/-- The observable state of the target `.env` file. -/
inductive EnvFile where
  | absent
  | readError (msg : String)
  | entries (xs : List EnvEntry)
deriving DecidableEq, Repr

/-- The entry scan loop of `silly_env_port`, threading the last accepted
values for `PORT` and `ST_PORT`. -/
def silly_env_port_aux (path : String) :
    List EnvEntry → Option Nat → Option Nat → Except String (Option Nat)
  | [], port, st_port => .ok (port.or st_port)
  | e :: rest, port, st_port =>
    match e with
    | .parseError msg => .error ("Failed to parse " ++ path ++ ": " ++ msg)
    | .skipped => silly_env_port_aux path rest port st_port
    | .pair key value =>
      if key = "PORT" then
        match parse_port value with
        | some parsed => silly_env_port_aux path rest (some parsed) st_port
        | none => silly_env_port_aux path rest port st_port
      else if key = "ST_PORT" then
        match parse_port value with
        | some parsed => silly_env_port_aux path rest port (some parsed)
        | none => silly_env_port_aux path rest port st_port
      else silly_env_port_aux path rest port st_port

/-- `silly_env_port(silly_dir)`: read the app-local `.env`; absent file is
`Ok(None)`, a read or parse failure is an error naming the file, otherwise
the last valid `PORT` value, falling back to the last valid `ST_PORT`. -/
def silly_env_port (silly_dir : List String) (f : EnvFile) : Except String (Option Nat) :=
  let env_path := pathStr (silly_dir ++ [".env"])
  match f with
  | .absent => .ok none
  | .readError msg => .error ("Failed to read " ++ env_path ++ ": " ++ msg)
  | .entries xs => silly_env_port_aux env_path xs none none

/-- `is_port_available(host, port)`: port zero is rejected outright, otherwise
the outcome of the bind-then-release probe (the oracle `canBind`). -/
def is_port_available (canBind : Nat → Bool) (port : Nat) : Bool :=
  if port = 0 then false else canBind port

/-- `FALLBACK_PORTS` (main.rs line 85). -/
def FALLBACK_PORTS : List Nat := [8000, 8080, 3000, 5173]

/-- Inputs consulted by `determine_port`: the target `.env` file, the
`SERVER_PORT` environment variable, and the bind probe for the host. -/
structure PortsEnv where
  envFile : EnvFile
  serverPortVar : Option String
  canBind : Nat → Bool

/-- `determine_port(silly_dir, host)`: app `.env` first (errors propagate),
then `SERVER_PORT`, then the first bindable fallback port. -/
def determine_port (silly_dir : List String) (pe : PortsEnv) : Except String Nat :=
  match silly_env_port silly_dir pe.envFile with
  | .error msg => .error msg
  | .ok (some port) => .ok port
  | .ok none =>
    match pe.serverPortVar.bind (fun v => parse_port v) with
    | some port => .ok port
    | none =>
      match FALLBACK_PORTS.find? (fun c => is_port_available pe.canBind c) with
      | some c => .ok c
      | none => .error "Unable to determine an available server port."

/-! ## Event traces

Every subprocess, filesystem or UI side effect performed by the embedded
functions is recorded as an event, so that claims of the form "no second
process is spawned" or "no pull is attempted" become trace facts. -/

/-- Observable side effects of the supervisor. -/
inductive Ev where
  | log (msg : String)
  | gitStash
  | gitPull
  | gitDiff
  | writeLog (path : List String) (contents : String)
  | commandCheck (bin : String)
  | nodeResolveRun
  | installRun
  | portResolve
  | spawned (args : List String)
  | healthPoll
  | shutdownRun
  | serverReady
deriving DecidableEq, Repr

/-! ## Update workflow (`allow_git_pull_in_app` lines 175-181,
`write_update_log` lines 214-237, `update_vendor` lines 239-365) -/

/-- `allow_git_pull_in_app()`: the raw `ALLOW_GIT_PULL_IN_APP` value (empty
when unset), trimmed and ASCII-lowercased, must be one of the four
enabling keywords. -/
def allow_git_pull_in_app (v : Option String) : Bool :=
  let raw := v.getD ""
  let k := asciiLower (rustTrim raw)
  k = "1" || k = "true" || k = "yes" || k = "on"

/-- `UpdateStatus` (main.rs lines 87-94). -/
inductive UpdateStatus where
  | success
  | upToDate
  | needRetry
  | failed
deriving DecidableEq, Repr

/-- `UpdateResponse` (main.rs lines 96-105); the log path is kept as path
components. -/
structure UpdateResponse where
  status : UpdateStatus
  message : String
  log_path : Option (List String)
  diff : Option String
  stash_used : Bool
  log_contents : Option String
deriving DecidableEq, Repr

/-- Oracle for one `update_vendor` run: directory resolution, the two
environment variables it reads, the outcome of each git subprocess
(`Except.error` models a spawn failure from `run_git`), and whether the
log-file write fails. -/
structure UpdateEnv where
  sillyDir : Except String (List String)
  allowVar : Option String
  updateScript : Option String
  stashResult : Except String GitOutput
  pullResult : Except String GitOutput
  diffResult : Except String GitOutput
  writeLogErr : Option String

/-- `vendor_dir()`: parent of the SillyTavern directory. -/
def vendor_parent (silly : List String) : Except String (List String) :=
  if silly = [] then .error "Unable to determine vendor directory"
  else .ok silly.dropLast

/-- The text assembled by `write_update_log`: the pull section with its
empty placeholder, then the diff section with its empty placeholder. -/
def update_log_contents (pull diff : String) : String :=
  let contents := "git pull output:\n"
  let trimmed_pull := rustTrim pull
  let contents := if trimmed_pull = "" then contents ++ "(no output)" else contents ++ trimmed_pull
  let contents := contents ++ "\n\nGit diff --compact-summary:\n"
  let contents :=
    if rustTrim diff = "" then contents ++ "No differences.\n"
    else contents ++ rustTrim diff ++ "\n"
  contents

/-- `write_update_log(log_path, pull, diff)`: create and write the diagnostic
file, returning its full text; file-system failure is an error. -/
def write_update_log (e : UpdateEnv) (log_path : List String) (pull diff : String) :
    Except String String × List Ev :=
  match e.writeLogErr with
  | some err => (.error err, [])
  | none =>
    let contents := update_log_contents pull diff
    (.ok contents, [.writeLog log_path contents])

/-- The `combined` pull-plus-diff text reported in the `diff` field of a
failed update: trimmed pull output, a blank line, trimmed diff output,
omitting empty pieces. -/
def update_combined_diff (pull_text diff_text : String) : String :=
  let c := rustTrim pull_text
  if rustTrim diff_text ≠ "" then
    (if c ≠ "" then c ++ "\n\n" else c) ++ rustTrim diff_text
  else c

/-- The pull/classify/diagnose tail of `update_vendor`, shared by the
stash and no-stash paths. -/
def update_vendor_pull (e : UpdateEnv) (silly : List String)
    (attempt_overwrite stash_used : Bool) : Except String UpdateResponse × List Ev :=
  let log_path := silly ++ ["WTUpdate.log"]
  match e.pullResult with
  | .error err => (.error err, [.gitPull])
  | .ok pull_output =>
    let pull_text := pull_output.stdout ++ pull_output.stderr
    if pull_output.success then
      let lower := asciiLower pull_text
      let up := containsSub lower "already up to date"
      let status := if up then UpdateStatus.upToDate else UpdateStatus.success
      let message :=
        if up then "WeylandTavern is up to date!"
        else "WeylandTavern updated successfully."
      (.ok { status := status, message := message, log_path := none, diff := none,
             stash_used := stash_used, log_contents := none },
       [.gitPull, .log message])
    else
      let tr0 : List Ev := [.gitPull,
        .log "There was an error updating WeylandTavern...",
        .log "Generating log file SillyTavern/WTUpdate.log..."]
      match e.diffResult with
      | .error err => (.error err, tr0 ++ [.gitDiff])
      | .ok diff_output =>
        let diff_text := diff_output.stdout ++ diff_output.stderr
        match write_update_log e log_path pull_text diff_text with
        | (.error err, wtr) => (.error err, tr0 ++ [.gitDiff] ++ wtr)
        | (.ok log_contents, wtr) =>
          let combined := update_combined_diff pull_text diff_text
          (.ok { status := if attempt_overwrite then UpdateStatus.failed else UpdateStatus.needRetry,
                 message :=
                   if attempt_overwrite then "Update failed even after stashing local changes."
                   else "There was an error updating WeylandTavern.",
                 log_path := some log_path,
                 diff := if combined = "" then none else some combined,
                 stash_used := stash_used,
                 log_contents := some log_contents },
           tr0 ++ [.gitDiff] ++ wtr)

/-- `update_vendor(attempt_overwrite)`: directory resolution, the policy
gate, the optional stash stage, then the pull stage. -/
def update_vendor (e : UpdateEnv) (attempt_overwrite : Bool) :
    Except String UpdateResponse × List Ev :=
  match e.sillyDir with
  | .error err => (.error err, [])
  | .ok silly =>
    match vendor_parent silly with
    | .error err => (.error err, [])
    | .ok _repo =>
      if !allow_git_pull_in_app e.allowVar then
        let script_hint := e.updateScript.filter (fun v => rustTrim v ≠ "")
        let message :=
          match script_hint with
          | some script =>
            "Skipping vendor update: in-app git pull is disabled by policy." ++
              " " ++ "Use " ++ script ++ " to update WeylandTavern manually."
          | none => "Skipping vendor update: in-app git pull is disabled by policy."
        (.ok { status := UpdateStatus.upToDate, message := message, log_path := none,
               diff := none, stash_used := false, log_contents := none },
         [.log message])
      else
        if attempt_overwrite then
          let tr0 : List Ev := [.log "Stashing local changes before retrying update...", .gitStash]
          match e.stashResult with
          | .error err => (.error err, tr0)
          | .ok out =>
            if !out.success then
              let details := out.stdout ++ out.stderr
              (.error
                 (if rustTrim details = "" then "git stash failed"
                  else "git stash failed: " ++ rustTrim details),
               tr0)
            else
              let r := update_vendor_pull e silly attempt_overwrite true
              (r.1, tr0 ++ r.2)
        else
          let r := update_vendor_pull e silly attempt_overwrite false
          (r.1, [.log "Attempting to update WeylandTavern..."] ++ r.2)

/-! ## npm location (`NpmTool` lines 114-130, `command_exists` lines 451-458,
`locate_npm` lines 460-527) -/

/-- `NpmTool`: a directly runnable binary, or the bundled `npm-cli.js`
script to be run through node. -/
inductive NpmTool where
  | binary (bin : String)
  | script (path : String)
deriving DecidableEq, Repr

/-- Oracle for `locate_npm`: the `NPM_BIN` override, the result of
`command_exists` (running `--version`, spawn failures already collapsed to
`false` by `unwrap_or(false)`), the platform candidate list, and the
outcome of resolving `npm-cli.js` through node. -/
structure NpmLocEnv where
  npmBin : Option String
  commandOk : String → Bool
  candidates : List String
  nodeResolve : Except String GitOutput

/-- The PATH-candidate and node-resolution tiers of `locate_npm`. -/
def locate_npm_from_candidates (e : NpmLocEnv) : List String → Except String NpmTool × List Ev
  | [] =>
    let tr0 : List Ev :=
      [.log "npm executable not found on PATH; attempting to use the npm-cli.js bundled with Node."]
    match e.nodeResolve with
    | .error err => (.error ("Unable to locate npm via node: " ++ err), tr0 ++ [.nodeResolveRun])
    | .ok out =>
      let script := rustTrim out.stdout
      if out.success && script ≠ "" then
        (.ok (.script script),
         tr0 ++ [.nodeResolveRun,
           .log ("Resolved npm-cli.js at " ++ script ++ ". Falling back to running npm via node.")])
      else
        let message :=
          "npm not found. Install Node.js (which includes npm) or set NPM_BIN to the npm executable path."
        let details := rustTrim out.stderr
        (.error (if details = "" then message else message ++ " " ++ details),
         tr0 ++ [.nodeResolveRun])
  | c :: rest =>
    if e.commandOk c then (.ok (.binary c), [.commandCheck c])
    else
      let r := locate_npm_from_candidates e rest
      (r.1, .commandCheck c :: r.2)

/-- `locate_npm(app)`: a non-empty `NPM_BIN` override is verified and is
authoritative — on verification failure the error names the override and
no later tier is consulted. -/
def locate_npm (e : NpmLocEnv) : Except String NpmTool × List Ev :=
  match e.npmBin with
  | some custom =>
    if custom ≠ "" then
      if e.commandOk custom then
        (.ok (.binary custom),
         [.commandCheck custom,
          .log ("Using npm from " ++ custom ++ " as configured via NPM_BIN.")])
      else
        (.error ("Configured NPM_BIN at " ++ custom ++
           " is not executable. Install npm or update NPM_BIN."),
         [.commandCheck custom])
    else locate_npm_from_candidates e e.candidates
  | none => locate_npm_from_candidates e e.candidates

/-! ## Supervisor state, launch and shutdown (`ServerState` lines 73-77,
`launch` lines 542-752, `shutdown` lines 931-961,
`terminate_process_tree` lines 894-929) -/

/-- `ServerState`: at most one tracked child process handle and, on the
Windows build, at most one job-object handle. Handles are modelled as
opaque numeric identifiers. -/
structure ServerState where
  child : Option Nat
  job : Option Nat
deriving DecidableEq, Repr

/-- Oracle for one `launch` attempt: directory resolution, the environment
variables read, filesystem facts for the staleness check, and the outcome
of every subprocess/OS step in program order. -/
structure LaunchEnv where
  sillyDir : Except String (List String)
  runNpmVar : Option String
  fs : Fs
  nodeOk : Except String Unit
  npmLoc : NpmLocEnv
  npmModeVar : Option String
  installResult : Except String GitOutput
  serverHostVar : Option String
  ports : PortsEnv
  serverArgsVar : Option String
  logsDirResult : Except String Unit
  logOpenResult : Except String Unit
  spawnResult : Except String Nat
  windows : Bool
  jobSetup : Except String Nat
  probe : Nat → Except String Bool

/-- The server argument list: `SERVER_ARGS` split on whitespace, then
`--listen`, `--listen-host`, `--listen-port` and `--no-open` appended
only when not already supplied by the user. -/
def build_args (raw host : String) (port : Nat) : List String :=
  let args := split_whitespace raw
  let args := if args.any (fun a => a = "--listen") then args else args ++ ["--listen", "true"]
  let args := if args.any (fun a => a = "--listen-host") then args else args ++ ["--listen-host", host]
  let args :=
    if args.any (fun a => a = "--listen-port") then args
    else args ++ ["--listen-port", toString port]
  let args := if args.any (fun a => a = "--no-open") then args else args ++ ["--no-open"]
  args

/-- `shutdown(state)`: take the tracked child and job handles, terminate the
process tree, and leave both slots empty. -/
def shutdown (_st : ServerState) : ServerState × List Ev :=
  ({ child := none, job := none }, [.shutdownRun])

/-- The npm-install stage of `launch`: skipped when not needed or when
`force_start` bypasses it; otherwise locate npm, choose `ci` or `install`,
run it, and fail the launch on a non-zero exit with the tagged message. -/
def launch_install (e : LaunchEnv) (force_start needs_npm_install : Bool) :
    Except String Unit × List Ev :=
  if needs_npm_install then
    if force_start then
      (.ok (), [.log "Skipping npm install after previous failure at user request."])
    else
      match locate_npm e.npmLoc with
      | (.error err, ntr) => (.error err, ntr)
      | (.ok _npm_tool, ntr) =>
        let npm_mode := asciiLower (rustTrim (e.npmModeVar.getD "install"))
        let lock_exists := e.fs.lockExists
        let modeTr : List Ev :=
          if npm_mode = "ci" && !lock_exists then
            [.log "package-lock.json missing; falling back to npm install."]
          else []
        let tr0 := ntr ++ modeTr ++ [.log "Installing Node modules...", .installRun]
        match e.installResult with
        | .error err => (.error err, tr0)
        | .ok out =>
          if !out.success then
            let trimmed := rustTrim (out.stdout ++ out.stderr)
            (.error
               (if trimmed = "" then
                  "NPM_INSTALL_FAILED::npm install failed. Check logs for details."
                else "NPM_INSTALL_FAILED::npm install failed. Details: " ++ trimmed),
             tr0 ++ (if trimmed = "" then [] else [.log trimmed]))
          else
            (.ok (), tr0 ++
              (if rustTrim out.stdout = "" then [] else [.log (rustTrim out.stdout)]) ++
              (if rustTrim out.stderr = "" then [] else [.log (rustTrim out.stderr)]))
  else (.ok (), [])

/-- The tail of `launch` after the child process is spawned and (on Windows)
attached to its job object: store the handles, poll health, and on a failed
health check tear the process down and report the failure. -/
def launch_after_spawn (e : LaunchEnv) (host : String) (port : Nat)
    (child : Nat) (job : Option Nat) (tr : List Ev) :
    Except String Unit × ServerState × List Ev :=
  let st1 : ServerState := { child := some child, job := job }
  let url := "http://" ++ host ++ ":" ++ toString port ++ "/"
  let tr := tr ++ [.healthPoll]
  if (wait_for_health e.probe).1 then
    let friendly :=
      "WeylandTavern is now active on " ++ host ++ ":" ++ toString port ++ " (By default)"
    (.ok (), st1, tr ++ [.log friendly, .serverReady])
  else
    let message := "Failed to verify server health at " ++ url ++ ". Please check the logs."
    let r := shutdown st1
    (.error message, r.1, tr ++ [.log message] ++ r.2)

/-- `launch(app, state, force_start)`: the full launch pipeline in program
order — directory resolution, the already-running guard, staleness check,
node check, install stage, port negotiation, log sink setup, spawn,
platform isolation, handle storage and health confirmation. -/
def launch (e : LaunchEnv) (force_start : Bool) (st : ServerState) :
    Except String Unit × ServerState × List Ev :=
  match e.sillyDir with
  | .error err => (.error err, st, [])
  | .ok silly =>
    if st.child.isSome then
      (.ok (), st, [.log "WeylandTavern is already running."])
    else
      let run_npm := asciiLower (rustTrim (e.runNpmVar.getD "auto"))
      match should_npm_install run_npm e.fs with
      | .error err => (.error err, st, [])
      | .ok needs_npm_install =>
        match e.nodeOk with
        | .error err => (.error err, st, [])
        | .ok _ =>
          match launch_install e force_start needs_npm_install with
          | (.error err, itr) => (.error err, st, itr)
          | (.ok _, itr) =>
            let host := e.serverHostVar.getD "127.0.0.1"
            let itr2 := itr ++ [.portResolve]
            match determine_port silly e.ports with
            | .error err => (.error err, st, itr2)
            | .ok port =>
              let args := build_args (e.serverArgsVar.getD "") host port
              let itr3 := itr2 ++ [.log "Starting WeylandTavern..."]
              match e.logsDirResult with
              | .error err => (.error err, st, itr3)
              | .ok _ =>
                match e.logOpenResult with
                | .error err => (.error err, st, itr3)
                | .ok _ =>
                  match e.spawnResult with
                  | .error err => (.error err, st, itr3)
                  | .ok child =>
                    let itr4 := itr3 ++ [.spawned args]
                    if e.windows then
                      match e.jobSetup with
                      | .error err => (.error err, st, itr4)
                      | .ok job => launch_after_spawn e host port child (some job) itr4
                    else
                      launch_after_spawn e host port child st.job itr4

/-! ## Theorems -/

/-- C3: `should_npm_install` is false for mode `never` and true for mode
`always` regardless of filesystem state; in `auto` mode it is true when
`node_modules` is absent, true when `node_modules` and the lock file both
exist and the lock file is strictly newer, false otherwise (including when
no lock file exists); any filesystem metadata failure is returned as an
error. -/
theorem should_npm_install_spec (fs : Fs) :
    should_npm_install "never" fs = .ok false ∧
    should_npm_install "always" fs = .ok true ∧
    (fs.nodeModulesExists = false → should_npm_install "auto" fs = .ok true) ∧
    (fs.nodeModulesExists = true → fs.lockExists = true →
      ∀ lm nm, fs.lockMtime = .ok lm → fs.nodeModulesMtime = .ok nm →
        should_npm_install "auto" fs = .ok (decide (nm < lm))) ∧
    (fs.nodeModulesExists = true → fs.lockExists = false →
      should_npm_install "auto" fs = .ok false) ∧
    (fs.nodeModulesExists = true → fs.lockExists = true →
      ∀ msg, fs.lockMtime = .error msg → should_npm_install "auto" fs = .error msg) ∧
    (fs.nodeModulesExists = true → fs.lockExists = true →
      ∀ lm msg, fs.lockMtime = .ok lm → fs.nodeModulesMtime = .error msg →
        should_npm_install "auto" fs = .error msg) := by
  refine ⟨rfl, rfl, ?_, ?_, ?_, ?_, ?_⟩
  · intro h1
    simp [should_npm_install, h1]
  · intro h1 h2 lm nm h3 h4
    simp [should_npm_install, h1, h2, h3, h4]
  · intro h1 h2
    simp [should_npm_install, h1, h2]
  · intro h1 h2 msg h3
    simp [should_npm_install, h1, h2, h3]
  · intro h1 h2 lm msg h3 h4
    simp [should_npm_install, h1, h2, h3, h4]

/-- A filesystem state with a lock file strictly newer than `node_modules`. -/
def fsStale : Fs :=
  { nodeModulesExists := true, lockExists := true
    lockMtime := .ok 10, nodeModulesMtime := .ok 5 }

/-- Witness for C3 at a concrete filesystem state. -/
theorem should_npm_install_spec_witness :
    should_npm_install "never" fsStale = .ok false ∧
    should_npm_install "always" fsStale = .ok true ∧
    should_npm_install "auto" fsStale = .ok (decide (5 < 10)) :=
  ⟨(should_npm_install_spec fsStale).1, (should_npm_install_spec fsStale).2.1,
   (should_npm_install_spec fsStale).2.2.2.1 rfl rfl 10 5 rfl rfl⟩

/-- The probe loop issues at most `fuel` attempts. -/
theorem wait_go_attempts_le (p : Nat → Except String Bool) :
    ∀ fuel i, (wait_for_health_go p i fuel).2.1 ≤ fuel := by
  intro fuel
  induction fuel with
  | zero => intro i; simp [wait_for_health_go]
  | succ n ih =>
    intro i
    cases h : probeOk (p i) with
    | true => simp [wait_for_health_go, h]
    | false =>
      simp only [wait_for_health_go, h, Bool.false_eq_true, if_false]
      have := ih (i + 1)
      omega

/-- When every probe in the window fails, the loop runs the whole budget,
sleeping the linearly increasing delays. -/
theorem wait_go_all_fail (p : Nat → Except String Bool) :
    ∀ fuel i, (∀ j, j < fuel → probeOk (p (i + j)) = false) →
      wait_for_health_go p i fuel =
        (false, fuel, (List.range fuel).map (fun j => healthDelay (i + j))) := by
  intro fuel
  induction fuel with
  | zero => intro i _; simp [wait_for_health_go]
  | succ n ih =>
    intro i h
    have h0 : probeOk (p i) = false := by simpa using h 0 (Nat.succ_pos n)
    simp only [wait_for_health_go, h0, Bool.false_eq_true, if_false]
    rw [ih (i + 1) (fun j hj => by
      have := h (j + 1) (by omega)
      simpa [Nat.add_comm, Nat.add_assoc, Nat.add_left_comm] using this)]
    simp [List.range_succ_eq_map, List.map_map, Function.comp_def, Nat.add_comm,
      Nat.add_assoc, Nat.add_left_comm]

/-- When the first success happens at probe index `k` (inside the budget),
the loop stops there having made exactly `k + 1` attempts. -/
theorem wait_go_first_success (p : Nat → Except String Bool) :
    ∀ k fuel i, k < fuel → (∀ j, j < k → probeOk (p (i + j)) = false) →
      probeOk (p (i + k)) = true →
      wait_for_health_go p i fuel =
        (true, k + 1, (List.range k).map (fun j => healthDelay (i + j))) := by
  intro k
  induction k with
  | zero =>
    intro fuel i hf _ hk
    cases fuel with
    | zero => omega
    | succ n =>
      have h0 : probeOk (p i) = true := by simpa using hk
      simp [wait_for_health_go, h0]
  | succ m ih =>
    intro fuel i hf h hk
    cases fuel with
    | zero => omega
    | succ n =>
      have h0 : probeOk (p i) = false := by simpa using h 0 (Nat.succ_pos m)
      simp only [wait_for_health_go, h0, Bool.false_eq_true, if_false]
      rw [ih n (i + 1) (by omega)
        (fun j hj => by
          have := h (j + 1) (by omega)
          simpa [Nat.add_comm, Nat.add_assoc, Nat.add_left_comm] using this)
        (by simpa [Nat.add_comm, Nat.add_assoc, Nat.add_left_comm] using hk)]
      simp [List.range_succ_eq_map, List.map_map, Function.comp_def, Nat.add_comm,
        Nat.add_assoc, Nat.add_left_comm]

/-- C5: `wait_for_health` issues at most 30 probe attempts, a request error
counts as a failed probe rather than a fatal condition, a first success at
probe `k` stops the loop with result true after exactly `k + 1` attempts
having slept the delays `500 + 100 * j` for `j < k`, an endpoint that never
succeeds exhausts the budget with result false, and the inter-attempt
delay is monotonically non-decreasing. -/
theorem wait_for_health_spec :
    (∀ p, (wait_for_health p).2.1 ≤ 30) ∧
    (∀ msg, probeOk (.error msg) = false) ∧
    (∀ p k, k < 30 → (∀ j, j < k → probeOk (p j) = false) → probeOk (p k) = true →
      wait_for_health p = (true, k + 1, (List.range k).map healthDelay)) ∧
    (∀ p, (∀ i, i < 30 → probeOk (p i) = false) →
      wait_for_health p = (false, 30, (List.range 30).map healthDelay)) ∧
    (∀ i j, i ≤ j → healthDelay i ≤ healthDelay j) := by
  refine ⟨fun p => wait_go_attempts_le p 30 0, fun msg => rfl, ?_, ?_, ?_⟩
  · intro p k hk h30 hk2
    have := wait_go_first_success p k 30 0 hk (by simpa using h30) (by simpa using hk2)
    simpa [wait_for_health] using this
  · intro p h
    have := wait_go_all_fail p 30 0 (fun j hj => by simpa using h j hj)
    simpa [wait_for_health] using this
  · intro i j hij
    simp only [healthDelay]
    omega

/-- A probe that errors (connection refused) four times, then succeeds on
the fifth attempt. -/
def probeFifth : Nat → Except String Bool :=
  fun i => if i = 4 then .ok true else .error "connection refused"

/-- Witness for C5: against `probeFifth` the poller returns true after
exactly five attempts with the four increasing delays. -/
theorem wait_for_health_spec_witness :
    wait_for_health probeFifth = (true, 4 + 1, (List.range 4).map healthDelay) ∧
    (wait_for_health probeFifth).2.1 ≤ 30 ∧
    probeOk (.error "connection refused") = false ∧
    healthDelay 3 ≤ healthDelay 4 ∧
    wait_for_health (fun _ => .ok false) = (false, 30, (List.range 30).map healthDelay) :=
  ⟨wait_for_health_spec.2.2.1 probeFifth 4 (by decide) (by decide) (by decide),
   wait_for_health_spec.1 probeFifth,
   wait_for_health_spec.2.1 "connection refused",
   wait_for_health_spec.2.2.2.2 3 4 (by decide),
   wait_for_health_spec.2.2.2.1 (fun _ => .ok false) (by decide)⟩

/-- A successful u16 parse stays within the 16-bit range. -/
theorem parseU16_le (cs : List Char) (n : Nat) (h : parseU16 cs = some n) : n ≤ 65535 := by
  simp only [parseU16] at h
  split_ifs at h with h1 h2 h3
  all_goals simp_all

/-- A port accepted by `parse_port` is non-zero and fits in 16 bits. -/
theorem parse_port_range (s : String) (port : Nat) (h : parse_port s = some port) :
    1 ≤ port ∧ port ≤ 65535 := by
  simp only [parse_port] at h
  by_cases h1 : rustTrim s = ""
  · rw [if_pos h1] at h
    cases h
  · rw [if_neg h1] at h
    cases hp : parseU16 (rustTrim s).data with
    | none => rw [hp] at h; cases h
    | some p =>
      simp only [hp] at h
      by_cases h2 : p ≠ 0
      · rw [if_pos h2] at h
        injection h with h
        subst h
        exact ⟨Nat.one_le_iff_ne_zero.mpr h2, parseU16_le _ _ hp⟩
      · rw [if_neg h2] at h
        cases h

/-- The fold step recording the last value of entry `key` accepted by
`parse_port` while scanning the `.env` entries. -/
def updFor (key : String) (acc : Option Nat) (e : EnvEntry) : Option Nat :=
  match e with
  | .pair k v =>
    if k = key then
      match parse_port v with
      | some p => some p
      | none => acc
    else acc
  | _ => acc

/-- Last valid port value bound to `key` in the entry list. -/
def lastEnvPort (key : String) (xs : List EnvEntry) : Option Nat :=
  xs.foldl (updFor key) none

/-- The `.env` scan computes, for each of the two recognized keys, the last
entry whose value passes `parse_port`. -/
theorem silly_env_port_aux_eq (path : String) :
    ∀ (xs : List EnvEntry) (p0 s0 : Option Nat), (∀ msg, EnvEntry.parseError msg ∉ xs) →
      silly_env_port_aux path xs p0 s0 =
        .ok ((xs.foldl (updFor "PORT") p0).or (xs.foldl (updFor "ST_PORT") s0)) := by
  intro xs
  induction xs with
  | nil => intro p0 s0 _; simp [silly_env_port_aux]
  | cons e rest ih =>
    intro p0 s0 h
    have hrest : ∀ msg, EnvEntry.parseError msg ∉ rest :=
      fun msg hm => h msg (List.mem_cons_of_mem _ hm)
    cases e with
    | parseError msg => exact absurd (List.mem_cons_self _ _) (h msg)
    | skipped =>
      simp only [silly_env_port_aux, List.foldl_cons, updFor]
      exact ih p0 s0 hrest
    | pair k v =>
      by_cases hk : k = "PORT"
      · subst hk
        cases hp : parse_port v with
        | some prt =>
          simp only [silly_env_port_aux, hp, List.foldl_cons, updFor, if_pos rfl,
            reduceIte]
          exact ih _ _ hrest
        | none =>
          simp only [silly_env_port_aux, hp, List.foldl_cons, updFor, if_pos rfl,
            reduceIte]
          exact ih _ _ hrest
      · by_cases hk2 : k = "ST_PORT"
        · subst hk2
          cases hp : parse_port v with
          | some prt =>
            simp only [silly_env_port_aux, hp, List.foldl_cons, updFor, hk,
              if_neg hk, if_pos rfl, reduceIte]
            exact ih _ _ hrest
          | none =>
            simp only [silly_env_port_aux, hp, List.foldl_cons, updFor, hk,
              if_neg hk, if_pos rfl, reduceIte]
            exact ih _ _ hrest
        · simp only [silly_env_port_aux, List.foldl_cons, updFor, if_neg hk, if_neg hk2]
          exact ih _ _ hrest

/-- C4: `determine_port` resolves with first-match-wins precedence — a valid
port parsed from the app-local `.env` (last valid `PORT` entry, else last
valid `ST_PORT` entry) wins; otherwise a valid `SERVER_PORT` value;
otherwise the first port of the ordered fallback list `8000, 8080, 3000,
5173` whose bind probe succeeds. `parse_port` rejects `0`, empty and
non-numeric values. -/
theorem determine_port_precedence :
    (∀ silly pe port, silly_env_port silly pe.envFile = .ok (some port) →
      determine_port silly pe = .ok port) ∧
    (∀ silly pe v port, silly_env_port silly pe.envFile = .ok none →
      pe.serverPortVar = some v → parse_port v = some port →
      determine_port silly pe = .ok port) ∧
    (∀ silly pe, silly_env_port silly pe.envFile = .ok none →
      pe.serverPortVar.bind (fun v => parse_port v) = none →
      determine_port silly pe =
        (match FALLBACK_PORTS.find? (fun c => is_port_available pe.canBind c) with
         | some c => .ok c
         | none => .error "Unable to determine an available server port.")) ∧
    (∀ silly xs, (∀ msg, EnvEntry.parseError msg ∉ xs) →
      silly_env_port silly (.entries xs) =
        .ok ((lastEnvPort "PORT" xs).or (lastEnvPort "ST_PORT" xs))) ∧
    FALLBACK_PORTS = [8000, 8080, 3000, 5173] ∧
    parse_port "0" = none ∧ parse_port "" = none ∧ parse_port " " = none ∧
    parse_port "abc" = none ∧
    (∀ s port, parse_port s = some port → 1 ≤ port ∧ port ≤ 65535) := by
  refine ⟨?_, ?_, ?_, ?_, rfl, rfl, rfl, rfl, rfl, parse_port_range⟩
  · intro silly pe port h
    simp [determine_port, h]
  · intro silly pe v port h hv hp
    simp [determine_port, h, hv, hp, Option.bind]
  · intro silly pe h hb
    simp [determine_port, h, hb]
  · intro silly xs h
    simpa [silly_env_port, lastEnvPort] using
      silly_env_port_aux_eq (pathStr (silly ++ [".env"])) xs none none h

/-- An `.env` file declaring both recognized keys. -/
def peEnvW : PortsEnv :=
  { envFile := .entries [.pair "ST_PORT" "9100", .pair "PORT" "9000"]
    serverPortVar := some "7777", canBind := fun _ => true }

/-- No `.env` port, valid `SERVER_PORT`. -/
def peSrvW : PortsEnv :=
  { envFile := .absent, serverPortVar := some "7777", canBind := fun _ => true }

/-- No `.env` port, invalid `SERVER_PORT`, only 3000 bindable. -/
def peFbW : PortsEnv :=
  { envFile := .absent, serverPortVar := some "0", canBind := fun p => p = 3000 }

/-- Witness for C4 at concrete environments exercising each tier. -/
theorem determine_port_precedence_witness :
    determine_port ["st"] peEnvW = .ok 9000 ∧
    determine_port ["st"] peSrvW = .ok 7777 ∧
    determine_port ["st"] peFbW =
      (match FALLBACK_PORTS.find? (fun c => is_port_available peFbW.canBind c) with
       | some c => .ok c
       | none => .error "Unable to determine an available server port.") ∧
    silly_env_port ["st"] (.entries [.pair "ST_PORT" "9100", .pair "PORT" "9000"]) =
      .ok ((lastEnvPort "PORT" [.pair "ST_PORT" "9100", .pair "PORT" "9000"]).or
        (lastEnvPort "ST_PORT" [.pair "ST_PORT" "9100", .pair "PORT" "9000"])) ∧
    1 ≤ 9000 ∧ 9000 ≤ 65535 := by
  obtain ⟨h1, h2, h3, h4, _, _, _, _, _, h10⟩ := determine_port_precedence
  exact ⟨h1 ["st"] peEnvW 9000 (by decide),
    h2 ["st"] peSrvW "7777" 7777 (by decide) rfl (by decide),
    h3 ["st"] peFbW (by decide) (by decide),
    h4 ["st"] _ (by intro msg hm; simp at hm),
    h10 "9000" 9000 (by decide)⟩

/-- An unreadable app `.env` file together with a perfectly valid
`SERVER_PORT` override and every fallback port bindable. -/
def peUnreadable : PortsEnv :=
  { envFile := .readError "boom", serverPortVar := some "8123", canBind := fun _ => true }

/-- C9 counterexample: when the app `.env` tier is unreadable,
`determine_port` returns the propagated read error even though the
`SERVER_PORT` tier yields the valid port 8123 — so the claim that any error
is the no-available-port error, and that a yielding tier is always used, is
false on the code. -/
theorem determine_port_unreadable_counterexample :
    determine_port ["st"] peUnreadable = .error "Failed to read st/.env: boom" ∧
    peUnreadable.serverPortVar.bind (fun v => parse_port v) = some 8123 ∧
    determine_port ["st"] peUnreadable ≠ .ok 8123 ∧
    determine_port ["st"] peUnreadable ≠
      .error "Unable to determine an available server port." := by
  refine ⟨rfl, rfl, ?_, ?_⟩ <;> decide

/-- C9 (amended): `determine_port` propagates a read/parse error of the
`.env` tier verbatim without consulting later tiers; when the `.env` tier
is readable but yields no port, the result is the dedicated
no-available-port error exactly when `SERVER_PORT` does not parse and no
fallback port can bind; whenever the `.env` tier is readable and any tier
yields a port, that port is returned. -/
theorem determine_port_error_spec :
    (∀ silly pe msg, silly_env_port silly pe.envFile = .error msg →
      determine_port silly pe = .error msg) ∧
    (∀ silly pe, silly_env_port silly pe.envFile = .ok none →
      (determine_port silly pe = .error "Unable to determine an available server port." ↔
        (pe.serverPortVar.bind (fun v => parse_port v) = none ∧
         ∀ c ∈ FALLBACK_PORTS, is_port_available pe.canBind c = false))) ∧
    (∀ silly pe port, silly_env_port silly pe.envFile = .ok (some port) →
      determine_port silly pe = .ok port) ∧
    (∀ silly pe port, silly_env_port silly pe.envFile = .ok none →
      pe.serverPortVar.bind (fun v => parse_port v) = some port →
      determine_port silly pe = .ok port) ∧
    (∀ silly pe c, silly_env_port silly pe.envFile = .ok none →
      pe.serverPortVar.bind (fun v => parse_port v) = none →
      FALLBACK_PORTS.find? (fun k => is_port_available pe.canBind k) = some c →
      determine_port silly pe = .ok c) := by
  refine ⟨?_, ?_, ?_, ?_, ?_⟩
  · intro silly pe msg h
    simp [determine_port, h]
  · intro silly pe h
    constructor
    · intro he
      simp only [determine_port, h] at he
      cases hb : pe.serverPortVar.bind (fun v => parse_port v) with
      | some port => rw [hb] at he; exact absurd he (by simp)
      | none =>
        rw [hb] at he
        refine ⟨rfl, ?_⟩
        cases hf : FALLBACK_PORTS.find? (fun c => is_port_available pe.canBind c) with
        | some c => rw [hf] at he; exact absurd he (by simp)
        | none =>
          intro c hc
          have := List.find?_eq_none.mp hf c hc
          simpa using this
    · rintro ⟨hb, hall⟩
      have hf : FALLBACK_PORTS.find? (fun c => is_port_available pe.canBind c) = none :=
        List.find?_eq_none.mpr (fun c hc => by simp [hall c hc])
      simp [determine_port, h, hb, hf]
  · intro silly pe port h
    simp [determine_port, h]
  · intro silly pe port h hb
    simp [determine_port, h, hb]
  · intro silly pe c h hb hf
    simp [determine_port, h, hb, hf]

/-- No tier can yield a port: no `.env`, junk `SERVER_PORT`, nothing binds. -/
def peNoPort : PortsEnv :=
  { envFile := .absent, serverPortVar := some "x", canBind := fun _ => false }

/-- Witness for the amended C9 at concrete environments: propagated read
error, the genuine no-available-port case, and a port-yielding tier. -/
theorem determine_port_error_spec_witness :
    determine_port ["st"] peUnreadable = .error "Failed to read st/.env: boom" ∧
    determine_port ["st"] peNoPort =
      .error "Unable to determine an available server port." ∧
    determine_port ["st"] peSrvW = .ok 7777 := by
  obtain ⟨h1, h2, _, h4, _⟩ := determine_port_error_spec
  refine ⟨h1 ["st"] peUnreadable "Failed to read st/.env: boom" rfl, ?_,
    h4 ["st"] peSrvW 7777 rfl (by decide)⟩
  exact (h2 ["st"] peNoPort rfl).mpr ⟨by decide, by decide⟩

/-- Every execution of the pull stage records the `git pull` invocation. -/
theorem gitPull_mem_update_vendor_pull (e : UpdateEnv) (silly : List String)
    (ao su : Bool) : Ev.gitPull ∈ (update_vendor_pull e silly ao su).2 := by
  simp only [update_vendor_pull]
  cases e.pullResult with
  | error err => simp
  | ok po =>
    cases hsucc : po.success with
    | true => simp [hsucc]
    | false =>
      simp only [hsucc, Bool.false_eq_true, if_false]
      cases e.diffResult with
      | error err => simp
      | ok dout =>
        simp only [write_update_log]
        cases e.writeLogErr with
        | none => simp
        | some err => simp

/-- C7: in `update_vendor(attempt_overwrite = true)`, a non-zero exit from
`git stash` is a hard failure — the call returns an error carrying the
stash's combined output rather than an `UpdateOutcome`, no `git pull` (and
no diff) is attempted, and no response reporting a used stash is ever
produced. -/
theorem update_vendor_stash_failure (e : UpdateEnv) (silly : List String) (so : GitOutput)
    (hs : e.sillyDir = .ok silly) (hsne : silly ≠ [])
    (hallow : allow_git_pull_in_app e.allowVar = true)
    (hst : e.stashResult = .ok so) (hfail : so.success = false) :
    update_vendor e true =
      (.error (if rustTrim (so.stdout ++ so.stderr) = "" then "git stash failed"
               else "git stash failed: " ++ rustTrim (so.stdout ++ so.stderr)),
       [.log "Stashing local changes before retrying update...", .gitStash]) ∧
    Ev.gitPull ∉ (update_vendor e true).2 ∧
    Ev.gitDiff ∉ (update_vendor e true).2 ∧
    ∀ resp, (update_vendor e true).1 ≠ .ok resp := by
  have hmain : update_vendor e true =
      (.error (if rustTrim (so.stdout ++ so.stderr) = "" then "git stash failed"
               else "git stash failed: " ++ rustTrim (so.stdout ++ so.stderr)),
       [.log "Stashing local changes before retrying update...", .gitStash]) := by
    simp [update_vendor, hs, vendor_parent, hsne, hallow, hst, hfail]
  refine ⟨hmain, ?_, ?_, ?_⟩
  · rw [hmain]; simp
  · rw [hmain]; simp
  · intro resp
    rw [hmain]
    split_ifs with h
    all_goals simp

/-- A stash that exits non-zero complaining about a conflict. -/
def ueStashFail : UpdateEnv :=
  { sillyDir := .ok ["vendor", "WeylandTavern", "SillyTavern"]
    allowVar := some "1"
    updateScript := none
    stashResult := .ok { success := false, stdout := "", stderr := " conflict \n" }
    pullResult := .ok { success := true, stdout := "", stderr := "" }
    diffResult := .ok { success := true, stdout := "", stderr := "" }
    writeLogErr := none }

/-- Witness for C7: the concrete failed stash aborts the update with the
combined output and never reaches `git pull`. -/
theorem update_vendor_stash_failure_witness :
    update_vendor ueStashFail true =
      (.error (if rustTrim ("" ++ " conflict \n") = "" then "git stash failed"
               else "git stash failed: " ++ rustTrim ("" ++ " conflict \n")),
       [.log "Stashing local changes before retrying update...", .gitStash]) ∧
    Ev.gitPull ∉ (update_vendor ueStashFail true).2 :=
  ⟨(update_vendor_stash_failure ueStashFail ["vendor", "WeylandTavern", "SillyTavern"]
      { success := false, stdout := "", stderr := " conflict \n" }
      rfl (by decide) (by decide) rfl rfl).1,
   (update_vendor_stash_failure ueStashFail ["vendor", "WeylandTavern", "SillyTavern"]
      { success := false, stdout := "", stderr := " conflict \n" }
      rfl (by decide) (by decide) rfl rfl).2.1⟩

/-- C10: `update_vendor` invokes git iff the trimmed, lowercased
`ALLOW_GIT_PULL_IN_APP` value is one of `1`, `true`, `yes`, `on`; for every
other value (unset and empty included) it immediately returns an
`UpToDate` response with `stash_used = false`, no log path and no log
contents, and runs no git subprocess. -/
theorem update_vendor_git_gating (e : UpdateEnv) (ao : Bool) (silly : List String)
    (hs : e.sillyDir = .ok silly) (hsne : silly ≠ []) :
    (allow_git_pull_in_app e.allowVar = false →
      ∃ resp, (update_vendor e ao).1 = .ok resp ∧ resp.status = .upToDate ∧
        resp.stash_used = false ∧ resp.log_path = none ∧ resp.diff = none ∧
        resp.log_contents = none ∧
        Ev.gitStash ∉ (update_vendor e ao).2 ∧ Ev.gitPull ∉ (update_vendor e ao).2 ∧
        Ev.gitDiff ∉ (update_vendor e ao).2) ∧
    (allow_git_pull_in_app e.allowVar = true →
      Ev.gitStash ∈ (update_vendor e ao).2 ∨ Ev.gitPull ∈ (update_vendor e ao).2) ∧
    (∀ v, allow_git_pull_in_app v = true ↔
      (asciiLower (rustTrim (v.getD "")) = "1" ∨ asciiLower (rustTrim (v.getD "")) = "true" ∨
       asciiLower (rustTrim (v.getD "")) = "yes" ∨ asciiLower (rustTrim (v.getD "")) = "on")) ∧
    allow_git_pull_in_app none = false ∧ allow_git_pull_in_app (some "") = false := by
  refine ⟨?_, ?_, ?_, by decide, by decide⟩
  · intro hfalse
    have hmain : update_vendor e ao =
        (.ok { status := UpdateStatus.upToDate
               message :=
                 match e.updateScript.filter (fun v => rustTrim v ≠ "") with
                 | some script =>
                   "Skipping vendor update: in-app git pull is disabled by policy." ++
                     " " ++ "Use " ++ script ++ " to update WeylandTavern manually."
                 | none => "Skipping vendor update: in-app git pull is disabled by policy."
               log_path := none, diff := none, stash_used := false, log_contents := none },
         [.log (match e.updateScript.filter (fun v => rustTrim v ≠ "") with
                | some script =>
                  "Skipping vendor update: in-app git pull is disabled by policy." ++
                    " " ++ "Use " ++ script ++ " to update WeylandTavern manually."
                | none => "Skipping vendor update: in-app git pull is disabled by policy.")]) := by
      simp [update_vendor, hs, vendor_parent, hsne, hfalse]
    refine ⟨_, by rw [hmain], rfl, rfl, rfl, rfl, rfl, ?_, ?_, ?_⟩
    all_goals rw [hmain]; simp
  · intro htrue
    cases ao with
    | false =>
      right
      simp only [update_vendor, hs, vendor_parent, if_neg hsne, htrue, Bool.not_true,
        Bool.false_eq_true, if_false, ite_false]
      simpa using gitPull_mem_update_vendor_pull e silly false false
    | true =>
      left
      simp only [update_vendor, hs, vendor_parent, if_neg hsne, htrue, Bool.not_true,
        Bool.false_eq_true, if_false, ite_false]
      cases e.stashResult with
      | error err => simp
      | ok out =>
        cases hsu : out.success with
        | false => simp [hsu]
        | true => simp [hsu]
  · intro v
    simp only [allow_git_pull_in_app]
    simp [or_assoc]

/-- In-app pull disabled by policy, with an external script hint. -/
def ueDisabled : UpdateEnv :=
  { sillyDir := .ok ["vendor", "WeylandTavern", "SillyTavern"]
    allowVar := some "no"
    updateScript := some "UpdateWT.bat"
    stashResult := .ok { success := true, stdout := "", stderr := "" }
    pullResult := .ok { success := true, stdout := "", stderr := "" }
    diffResult := .ok { success := true, stdout := "", stderr := "" }
    writeLogErr := none }

/-- Witness for C10: policy-disabled run yields `UpToDate` with no git
invocation; an enabling value makes a git invocation happen. -/
theorem update_vendor_git_gating_witness :
    (∃ resp, (update_vendor ueDisabled false).1 = .ok resp ∧ resp.status = .upToDate ∧
      resp.stash_used = false ∧ resp.log_path = none ∧ resp.diff = none ∧
      resp.log_contents = none ∧
      Ev.gitStash ∉ (update_vendor ueDisabled false).2 ∧
      Ev.gitPull ∉ (update_vendor ueDisabled false).2 ∧
      Ev.gitDiff ∉ (update_vendor ueDisabled false).2) ∧
    (Ev.gitStash ∈ (update_vendor ueStashFail true).2 ∨
      Ev.gitPull ∈ (update_vendor ueStashFail true).2) ∧
    allow_git_pull_in_app (some " TrUe ") = true :=
  ⟨(update_vendor_git_gating ueDisabled false ["vendor", "WeylandTavern", "SillyTavern"]
      rfl (by decide)).1 (by decide),
   (update_vendor_git_gating ueStashFail true ["vendor", "WeylandTavern", "SillyTavern"]
      rfl (by decide)).2.1 (by decide),
   ((update_vendor_git_gating ueDisabled false ["vendor", "WeylandTavern", "SillyTavern"]
      rfl (by decide)).2.2.1 (some " TrUe ")).mpr (by decide)⟩

/-- Successful pull: the stage classifies by the case-insensitive marker and
returns a response with no log artifacts. -/
theorem update_vendor_pull_success_spec (e : UpdateEnv) (silly : List String)
    (ao su : Bool) (po : GitOutput) (hp : e.pullResult = .ok po)
    (hsucc : po.success = true) :
    update_vendor_pull e silly ao su =
      (.ok { status := if containsSub (asciiLower (po.stdout ++ po.stderr)) "already up to date"
                       then UpdateStatus.upToDate else UpdateStatus.success
             message := if containsSub (asciiLower (po.stdout ++ po.stderr)) "already up to date"
                        then "WeylandTavern is up to date!"
                        else "WeylandTavern updated successfully."
             log_path := none, diff := none, stash_used := su, log_contents := none },
       [.gitPull,
        .log (if containsSub (asciiLower (po.stdout ++ po.stderr)) "already up to date"
              then "WeylandTavern is up to date!"
              else "WeylandTavern updated successfully.")]) := by
  simp [update_vendor_pull, hp, hsucc]

/-- Failed pull: the stage runs the diff, persists the two-section log at
`WTUpdate.log` inside the target tree, and reports retry/failure according
to the overwrite flag, carrying the log path, its text and the stash flag. -/
theorem update_vendor_pull_fail_spec (e : UpdateEnv) (silly : List String)
    (ao su : Bool) (po dout : GitOutput) (hp : e.pullResult = .ok po)
    (hfail : po.success = false) (hd : e.diffResult = .ok dout)
    (hw : e.writeLogErr = none) :
    update_vendor_pull e silly ao su =
      (.ok { status := if ao then UpdateStatus.failed else UpdateStatus.needRetry
             message := if ao then "Update failed even after stashing local changes."
                        else "There was an error updating WeylandTavern."
             log_path := some (silly ++ ["WTUpdate.log"])
             diff := if update_combined_diff (po.stdout ++ po.stderr)
                          (dout.stdout ++ dout.stderr) = "" then none
                     else some (update_combined_diff (po.stdout ++ po.stderr)
                          (dout.stdout ++ dout.stderr))
             stash_used := su
             log_contents :=
               some (update_log_contents (po.stdout ++ po.stderr)
                 (dout.stdout ++ dout.stderr)) },
       [.gitPull, .log "There was an error updating WeylandTavern...",
        .log "Generating log file SillyTavern/WTUpdate.log...", .gitDiff,
        .writeLog (silly ++ ["WTUpdate.log"])
          (update_log_contents (po.stdout ++ po.stderr) (dout.stdout ++ dout.stderr))]) := by
  simp [update_vendor_pull, hp, hfail, hd, write_update_log, hw]

/-- C6: under the policy gate with a resolvable target tree and a completed
stash stage, a zero-exit `git pull` yields `UpToDate` when the combined
output contains the (case-insensitively matched) up-to-date marker and
`Success` otherwise, in both cases with no log path or contents; a non-zero
`git pull` runs `git diff --compact-summary`, persists the two-section log
(`git pull output:` with placeholder `(no output)`, then
`Git diff --compact-summary:` with placeholder `No differences.`) at
`WTUpdate.log` inside the target tree, and returns `NeedRetry` on a first
attempt or `Failed` on an overwrite retry, carrying the log path, its full
text and the stash flag. -/
theorem update_vendor_pull_outcomes (e : UpdateEnv) (silly : List String) (ao : Bool)
    (hs : e.sillyDir = .ok silly) (hsne : silly ≠ [])
    (hallow : allow_git_pull_in_app e.allowVar = true)
    (hstash : ao = true → ∃ so, e.stashResult = .ok so ∧ so.success = true) :
    (∀ po, e.pullResult = .ok po → po.success = true →
      ∃ resp, (update_vendor e ao).1 = .ok resp ∧
        resp.status =
          (if containsSub (asciiLower (po.stdout ++ po.stderr)) "already up to date"
           then UpdateStatus.upToDate else UpdateStatus.success) ∧
        resp.log_path = none ∧ resp.log_contents = none ∧ resp.stash_used = ao) ∧
    (∀ po dout, e.pullResult = .ok po → po.success = false →
      e.diffResult = .ok dout → e.writeLogErr = none →
      ∃ resp, (update_vendor e ao).1 = .ok resp ∧
        resp.status = (if ao then UpdateStatus.failed else UpdateStatus.needRetry) ∧
        resp.log_path = some (silly ++ ["WTUpdate.log"]) ∧
        resp.log_contents =
          some (update_log_contents (po.stdout ++ po.stderr) (dout.stdout ++ dout.stderr)) ∧
        resp.stash_used = ao ∧
        Ev.writeLog (silly ++ ["WTUpdate.log"])
            (update_log_contents (po.stdout ++ po.stderr) (dout.stdout ++ dout.stderr))
          ∈ (update_vendor e ao).2) ∧
    (∀ p d, update_log_contents p d =
      "git pull output:\n" ++
        (if rustTrim p = "" then "(no output)" else rustTrim p) ++
        ("\n\nGit diff --compact-summary:\n" ++
          (if rustTrim d = "" then "No differences.\n" else rustTrim d ++ "\n"))) := by
  have hlink : ∃ pre, update_vendor e ao =
      ((update_vendor_pull e silly ao ao).1, pre ++ (update_vendor_pull e silly ao ao).2) := by
    cases ao with
    | false =>
      refine ⟨[.log "Attempting to update WeylandTavern..."], ?_⟩
      simp [update_vendor, hs, vendor_parent, hsne, hallow]
    | true =>
      obtain ⟨so, hso, hsosucc⟩ := hstash rfl
      refine ⟨[.log "Stashing local changes before retrying update...", .gitStash], ?_⟩
      simp [update_vendor, hs, vendor_parent, hsne, hallow, hso, hsosucc]
  obtain ⟨pre, hpre⟩ := hlink
  refine ⟨?_, ?_, ?_⟩
  · intro po hp hsucc
    have heq := update_vendor_pull_success_spec e silly ao ao po hp hsucc
    exact ⟨_, by rw [hpre, heq], rfl, rfl, rfl, rfl⟩
  · intro po dout hp hfail hd hw
    have heq := update_vendor_pull_fail_spec e silly ao ao po dout hp hfail hd hw
    refine ⟨_, by rw [hpre, heq], rfl, rfl, rfl, rfl, ?_⟩
    rw [hpre, heq]
    simp
  · intro p d
    simp only [update_log_contents]
    split_ifs with h1 h2 h3
    all_goals apply String.ext
    all_goals simp [String.data_append]

/-- A failing pull with a non-empty diff, policy enabled, first attempt. -/
def uePullFail : UpdateEnv :=
  { sillyDir := .ok ["vendor", "WeylandTavern", "SillyTavern"]
    allowVar := some "yes"
    updateScript := none
    stashResult := .ok { success := true, stdout := "", stderr := "" }
    pullResult := .ok { success := false, stdout := "", stderr := "error: refs\n" }
    diffResult := .ok { success := true, stdout := " M file.txt\n", stderr := "" }
    writeLogErr := none }

/-- A pull reporting the repository is already current. -/
def ueCurrent : UpdateEnv :=
  { uePullFail with
    pullResult := .ok { success := true, stdout := "Already up to date.\n", stderr := "" } }

/-- Witness for C6: the up-to-date classification on a current repository and
the `NeedRetry`-with-log outcome on a failing pull, at concrete inputs. -/
theorem update_vendor_pull_outcomes_witness :
    (∃ resp, (update_vendor ueCurrent false).1 = .ok resp ∧
      resp.status =
        (if containsSub (asciiLower ("Already up to date.\n" ++ "")) "already up to date"
         then UpdateStatus.upToDate else UpdateStatus.success) ∧
      resp.log_path = none ∧ resp.log_contents = none ∧ resp.stash_used = false) ∧
    (∃ resp, (update_vendor uePullFail false).1 = .ok resp ∧
      resp.status = (if false then UpdateStatus.failed else UpdateStatus.needRetry) ∧
      resp.log_path = some (["vendor", "WeylandTavern", "SillyTavern"] ++ ["WTUpdate.log"]) ∧
      resp.log_contents =
        some (update_log_contents ("" ++ "error: refs\n") (" M file.txt\n" ++ "")) ∧
      resp.stash_used = false ∧
      Ev.writeLog (["vendor", "WeylandTavern", "SillyTavern"] ++ ["WTUpdate.log"])
          (update_log_contents ("" ++ "error: refs\n") (" M file.txt\n" ++ ""))
        ∈ (update_vendor uePullFail false).2) :=
  ⟨(update_vendor_pull_outcomes ueCurrent ["vendor", "WeylandTavern", "SillyTavern"] false
      rfl (by decide) (by decide) (fun h => by cases h)).1
      { success := true, stdout := "Already up to date.\n", stderr := "" } rfl rfl,
   (update_vendor_pull_outcomes uePullFail ["vendor", "WeylandTavern", "SillyTavern"] false
      rfl (by decide) (by decide) (fun h => by cases h)).2.1
      { success := false, stdout := "", stderr := "error: refs\n" }
      { success := true, stdout := " M file.txt\n", stderr := "" } rfl rfl rfl rfl⟩

/-- C8: a configured non-empty `NPM_BIN` override that fails its
`--version` verification makes `locate_npm` fail with an error naming the
override path; the result trace is exactly the one verification run — no
PATH candidate is probed and the node script-resolution tier never runs. -/
theorem locate_npm_override_failure (e : NpmLocEnv) (custom : String)
    (hb : e.npmBin = some custom) (hne : custom ≠ "")
    (hfail : e.commandOk custom = false) :
    locate_npm e =
      (.error ("Configured NPM_BIN at " ++ custom ++
         " is not executable. Install npm or update NPM_BIN."),
       [.commandCheck custom]) ∧
    Ev.nodeResolveRun ∉ (locate_npm e).2 ∧
    (∀ c, Ev.commandCheck c ∈ (locate_npm e).2 → c = custom) := by
  have hmain : locate_npm e =
      (.error ("Configured NPM_BIN at " ++ custom ++
         " is not executable. Install npm or update NPM_BIN."),
       [.commandCheck custom]) := by
    simp [locate_npm, hb, hne, hfail]
  refine ⟨hmain, ?_, ?_⟩
  · rw [hmain]; simp
  · intro c hc
    rw [hmain] at hc
    simpa using hc

/-- A misconfigured override with npm actually present on PATH. -/
def nlOverrideBad : NpmLocEnv :=
  { npmBin := some "/opt/npm", commandOk := fun b => b = "npm", candidates := ["npm"]
    nodeResolve := .ok { success := true, stdout := "/usr/lib/npm-cli.js", stderr := "" } }

/-- Witness for C8: the override failure at a concrete environment in which
both later tiers would have succeeded. -/
theorem locate_npm_override_failure_witness :
    locate_npm nlOverrideBad =
      (.error ("Configured NPM_BIN at " ++ "/opt/npm" ++
         " is not executable. Install npm or update NPM_BIN."),
       [.commandCheck "/opt/npm"]) ∧
    Ev.nodeResolveRun ∉ (locate_npm nlOverrideBad).2 :=
  ⟨(locate_npm_override_failure nlOverrideBad "/opt/npm" rfl (by decide) (by decide)).1,
   (locate_npm_override_failure nlOverrideBad "/opt/npm" rfl (by decide) (by decide)).2.1⟩

/-- The candidate/node tiers never poll health. -/
theorem healthPoll_not_in_candidates (e : NpmLocEnv) :
    ∀ cs, Ev.healthPoll ∉ (locate_npm_from_candidates e cs).2 := by
  intro cs
  induction cs with
  | nil =>
    simp only [locate_npm_from_candidates]
    split
    · simp
    · split
      all_goals simp
  | cons c rest ih =>
    simp only [locate_npm_from_candidates]
    split
    · simp
    · simp [ih]

/-- `locate_npm` never polls health. -/
theorem healthPoll_not_in_locate (e : NpmLocEnv) : Ev.healthPoll ∉ (locate_npm e).2 := by
  simp only [locate_npm]
  split
  · split
    · split
      all_goals simp
    · exact healthPoll_not_in_candidates e _
  · exact healthPoll_not_in_candidates e _

/-- The install stage never polls health. -/
theorem healthPoll_not_in_install (e : LaunchEnv) (f n : Bool) :
    Ev.healthPoll ∉ (launch_install e f n).2 := by
  simp only [launch_install]
  cases n with
  | false => simp
  | true =>
    cases f with
    | true => simp
    | false =>
      simp only [Bool.false_eq_true, if_false, if_true]
      have hloc := healthPoll_not_in_locate e.npmLoc
      rcases hl : locate_npm e.npmLoc with ⟨res, ntr⟩
      rw [hl] at hloc
      cases res with
      | error err => simpa using hloc
      | ok tool =>
        simp only
        cases e.installResult with
        | error err =>
          split_ifs
          all_goals simp_all [List.mem_append]
        | ok out =>
          cases hsu : out.success with
          | true =>
            simp only [hsu, Bool.not_true, Bool.false_eq_true, if_false]
            split_ifs
            all_goals simp_all [List.mem_append]
          | false =>
            simp only [hsu, Bool.not_false, if_true]
            split_ifs
            all_goals simp_all [List.mem_append]

/-- C1: while a child handle is already tracked, `launch` leaves the state
(and the tracked handle) unchanged and performs no install, no port
negotiation and no spawn; when the target directory also resolves, the
call returns success as a no-op, reporting only "already running". -/
theorem launch_already_running (e : LaunchEnv) (force : Bool) (st : ServerState)
    (h : Nat) (hc : st.child = some h) :
    ((launch e force st).2.1 = st ∧
     Ev.installRun ∉ (launch e force st).2.2 ∧
     Ev.portResolve ∉ (launch e force st).2.2 ∧
     (∀ args, Ev.spawned args ∉ (launch e force st).2.2)) ∧
    (∀ silly, e.sillyDir = .ok silly →
      launch e force st = (.ok (), st, [.log "WeylandTavern is already running."])) := by
  have hsome : st.child.isSome = true := by rw [hc]; rfl
  constructor
  · cases hd : e.sillyDir with
    | error err => simp [launch, hd]
    | ok silly => simp [launch, hd, hsome]
  · intro silly hd
    simp [launch, hd, hsome]

/-- When the health poll fails, the post-spawn stage reports the failure,
tears the process down and clears both handle slots. -/
theorem launch_after_spawn_unhealthy (e : LaunchEnv) (host : String) (port child : Nat)
    (job : Option Nat) (tr0 : List Ev) (hh : (wait_for_health e.probe).1 = false) :
    launch_after_spawn e host port child job tr0 =
      (.error ("Failed to verify server health at " ++
         ("http://" ++ host ++ ":" ++ toString port ++ "/") ++ ". Please check the logs."),
       { child := none, job := none },
       (tr0 ++ [.healthPoll]) ++
         [.log ("Failed to verify server health at " ++
            ("http://" ++ host ++ ":" ++ toString port ++ "/") ++ ". Please check the logs.")] ++
         [.shutdownRun]) := by
  simp [launch_after_spawn, shutdown, hh]

/-- C2: whenever `launch` reaches the health poll and `wait_for_health`
reports failure, the call returns an error, initiates shutdown, and leaves
neither a child handle nor a job handle tracked in the supervisor state. -/
theorem launch_unhealthy_teardown (e : LaunchEnv) (force : Bool) (st : ServerState)
    (r : Except String Unit) (st2 : ServerState) (tr : List Ev)
    (hh : (wait_for_health e.probe).1 = false)
    (hl : launch e force st = (r, st2, tr))
    (htr : Ev.healthPoll ∈ tr) :
    (∃ msg, r = .error msg) ∧ st2.child = none ∧ st2.job = none ∧
      Ev.shutdownRun ∈ tr := by
  simp only [launch] at hl
  rcases hd : e.sillyDir with msg | silly
  · simp only [hd] at hl
    simp only [Prod.mk.injEq] at hl
    obtain ⟨rfl, rfl, rfl⟩ := hl
    simp at htr
  · simp only [hd] at hl
    by_cases hcs : st.child.isSome = true
    · rw [if_pos hcs] at hl
      simp only [Prod.mk.injEq] at hl
      obtain ⟨rfl, rfl, rfl⟩ := hl
      simp at htr
    · rw [if_neg hcs] at hl
      rcases hn : should_npm_install (asciiLower (rustTrim (e.runNpmVar.getD "auto"))) e.fs
        with msg | needs
      · simp only [hn] at hl
        simp only [Prod.mk.injEq] at hl
        obtain ⟨rfl, rfl, rfl⟩ := hl
        simp at htr
      · simp only [hn] at hl
        rcases hk : e.nodeOk with msg | u
        · simp only [hk] at hl
          simp only [Prod.mk.injEq] at hl
          obtain ⟨rfl, rfl, rfl⟩ := hl
          simp at htr
        · simp only [hk] at hl
          have hni := healthPoll_not_in_install e force needs
          rcases hi : launch_install e force needs with ⟨ires, itr⟩
          rw [hi] at hni
          simp only at hni
          simp only [hi] at hl
          cases ires with
          | error err =>
            simp only [Prod.mk.injEq] at hl
            obtain ⟨rfl, rfl, rfl⟩ := hl
            exact absurd htr hni
          | ok u2 =>
            rcases hp : determine_port silly e.ports with msg | port
            · simp only [hp] at hl
              simp only [Prod.mk.injEq] at hl
              obtain ⟨rfl, rfl, rfl⟩ := hl
              simp_all [List.mem_append]
            · simp only [hp] at hl
              rcases hld : e.logsDirResult with msg | u3
              · simp only [hld] at hl
                simp only [Prod.mk.injEq] at hl
                obtain ⟨rfl, rfl, rfl⟩ := hl
                simp_all [List.mem_append]
              · simp only [hld] at hl
                rcases hlo : e.logOpenResult with msg | u4
                · simp only [hlo] at hl
                  simp only [Prod.mk.injEq] at hl
                  obtain ⟨rfl, rfl, rfl⟩ := hl
                  simp_all [List.mem_append]
                · simp only [hlo] at hl
                  rcases hsp : e.spawnResult with msg | child
                  · simp only [hsp] at hl
                    simp only [Prod.mk.injEq] at hl
                    obtain ⟨rfl, rfl, rfl⟩ := hl
                    simp_all [List.mem_append]
                  · simp only [hsp] at hl
                    cases hw : e.windows with
                    | true =>
                      simp only [hw, reduceIte] at hl
                      rcases hj : e.jobSetup with msg | job
                      · simp only [hj] at hl
                        simp only [Prod.mk.injEq] at hl
                        obtain ⟨rfl, rfl, rfl⟩ := hl
                        simp_all [List.mem_append]
                      · simp only [hj] at hl
                        rw [launch_after_spawn_unhealthy e _ _ _ _ _ hh] at hl
                        simp only [Prod.mk.injEq] at hl
                        obtain ⟨rfl, rfl, rfl⟩ := hl
                        refine ⟨⟨_, rfl⟩, rfl, rfl, ?_⟩
                        simp
                    | false =>
                      simp only [hw, Bool.false_eq_true, reduceIte] at hl
                      rw [launch_after_spawn_unhealthy e _ _ _ _ _ hh] at hl
                      simp only [Prod.mk.injEq] at hl
                      obtain ⟨rfl, rfl, rfl⟩ := hl
                      refine ⟨⟨_, rfl⟩, rfl, rfl, ?_⟩
                      simp

/-- A launch environment in which every stage succeeds but the spawned
server never answers its health probe. -/
def leUnhealthy : LaunchEnv :=
  { sillyDir := .ok ["st"]
    runNpmVar := some "never"
    fs := { nodeModulesExists := true, lockExists := false
            lockMtime := .ok 0, nodeModulesMtime := .ok 0 }
    nodeOk := .ok ()
    npmLoc := nlOverrideBad
    npmModeVar := none
    installResult := .ok { success := true, stdout := "", stderr := "" }
    serverHostVar := none
    ports := { envFile := .entries [.pair "PORT" "9000"], serverPortVar := none
               canBind := fun _ => false }
    serverArgsVar := none
    logsDirResult := .ok ()
    logOpenResult := .ok ()
    spawnResult := .ok 7
    windows := false
    jobSetup := .error "no job object outside Windows"
    probe := fun _ => .error "connection refused" }

/-- Witness for C1: with a tracked child handle, the concrete launch is a
pure no-op success that only reports "already running". -/
theorem launch_already_running_witness :
    launch leUnhealthy false { child := some 3, job := none } =
      (.ok (), { child := some 3, job := none },
       [.log "WeylandTavern is already running."]) ∧
    Ev.installRun ∉ (launch leUnhealthy false { child := some 3, job := none }).2.2 ∧
    (∀ args, Ev.spawned args ∉
      (launch leUnhealthy false { child := some 3, job := none }).2.2) :=
  ⟨(launch_already_running leUnhealthy false _ 3 rfl).2 ["st"] rfl,
   (launch_already_running leUnhealthy false _ 3 rfl).1.2.1,
   (launch_already_running leUnhealthy false _ 3 rfl).1.2.2.2⟩

/-- Witness for C2: the concrete never-healthy launch returns an error,
runs shutdown, and leaves no tracked handles. -/
theorem launch_unhealthy_teardown_witness :
    (∃ msg, (launch leUnhealthy false { child := none, job := none }).1 = .error msg) ∧
    (launch leUnhealthy false { child := none, job := none }).2.1.child = none ∧
    (launch leUnhealthy false { child := none, job := none }).2.1.job = none ∧
    Ev.shutdownRun ∈ (launch leUnhealthy false { child := none, job := none }).2.2 :=
  launch_unhealthy_teardown leUnhealthy false { child := none, job := none }
    (launch leUnhealthy false { child := none, job := none }).1
    (launch leUnhealthy false { child := none, job := none }).2.1
    (launch leUnhealthy false { child := none, job := none }).2.2
    (by decide) rfl (by decide)

end WeylandTavern
